import Mathlib

/-!
Shallow embedding of `src/frontend/src/App.tsx`, which contains two
near-duplicate variants of a chat UI component (separated in the source
file by a document marker).  We call the first one `V1` (lines 1-329,
with `error` and `pendingUserInput` state) and the second one `V2`
(lines 329-742, with optimistic message insertion and no error state).

Network effects are modelled by an environment: each `fetch` call either
rejects (`netError`) or yields a response with an `ok` flag, a `status`
code and a body that `response.json()` either parses (`some b`) or fails
to parse (`none`).  The handlers become pure functions from a state and
such an environment to a state; the sequence of HTTP requests a handler
issues is modelled separately, each request paired with a flag recording
whether the handler awaits it before issuing the next request.
-/

/-- JavaScript `String.prototype.trim()` modelled over the character
list: drop whitespace from both ends.  (JS trims the Unicode whitespace
set; `Char.isWhitespace` covers the ASCII part, which is what the claims
exercise.) -/
def jsTrim (s : String) : String :=
  String.mk (((s.data.dropWhile Char.isWhitespace).reverse.dropWhile
    Char.isWhitespace).reverse)

/-- JavaScript `str.substring(start, stop)` modelled over the character
list.  (JS counts UTF-16 code units; this counts characters, which
agrees on all basic-plane text.) -/
def jsSubstring (s : String) (start stop : Nat) : String :=
  String.mk ((s.data.take stop).drop start)

/-- `Message.role` in the source is the union type `'user' | 'assistant'`. -/
inductive Role where
  | user
  | assistant
deriving DecidableEq, Repr

/-- The `Conversation` record type of the source. -/
structure Conversation where
  id : Nat
  title : String
  created_at : String
deriving DecidableEq, Repr

/-- The `Message` record type of the source. -/
structure Message where
  id : Nat
  role : Role
  content : String
  conversation_id : Nat
  created_at : String
deriving DecidableEq, Repr

/-- Outcome of one `fetch` call as the handlers observe it: the fetch
promise rejects, or a response arrives with `ok`/`status` and a body that
`response.json()` parses to `some b` or fails to parse (`none`). -/
inductive FetchResult (β : Type) where
  | netError : FetchResult β
  | response (ok : Bool) (status : Nat) (body : Option β) : FetchResult β
deriving DecidableEq, Repr

/-- `createConversation` (both variants): POSTs the title and returns
`response.json()` with no `response.ok` check, so it throws exactly when
the fetch rejects or the body fails to parse. -/
def createConversation (r : FetchResult Conversation) : Except Unit Conversation :=
  match r with
  | FetchResult.netError => Except.error ()
  | FetchResult.response _ _ none => Except.error ()
  | FetchResult.response _ _ (some c) => Except.ok c

/-- `createMessage` (both variants): POSTs the content; throws when the
fetch rejects, when `response.ok` is false (explicit check in the source),
or when the body fails to parse; otherwise returns the parsed message. -/
def createMessage (r : FetchResult Message) : Except Unit Message :=
  match r with
  | FetchResult.netError => Except.error ()
  | FetchResult.response ok _ body =>
      if ok then
        match body with
        | some m => Except.ok m
        | none => Except.error ()
      else Except.error ()

/-- One HTTP request of the backend surface, as issued by the handlers. -/
inductive Req where
  | listConvs
  | getMsgs (conversationId : Nat)
  | postConv (title : String)
  | postMsg (conversationId : Nat) (content : String)
deriving DecidableEq, Repr

/-- The backend responses a single `handleSend` run can consume:
the create-conversation POST, the send-message POST, and (first variant
only) the refetch of the conversation's messages. -/
structure SendEnv where
  createConv : FetchResult Conversation
  createMsg : FetchResult Message
  refetch : FetchResult (List Message)
deriving Repr

namespace V1

/-- The `useState` cells of the first variant's `App` component. -/
structure State where
  messages : List Message
  input : String
  conversations : List Conversation
  currentConversation : Option Conversation
  isLoading : Bool
  pendingUserInput : String
  error : String
deriving DecidableEq, Repr

/-- `fetchConversations` (first variant): parses the body with no `ok`
check and stores it; any throw is only logged. -/
def fetchConversations (s : State) (r : FetchResult (List Conversation)) : State :=
  match r with
  | FetchResult.netError => s
  | FetchResult.response _ _ none => s
  | FetchResult.response _ _ (some data) => { s with conversations := data }

/-- `fetchMessages` (first variant): sets loading, throws on a non-ok
status or an unparseable body (caught locally, setting the error string),
stores the parsed list and clears the error on success, and clears
loading in `finally`.  It never propagates an exception to its caller. -/
def fetchMessages (s : State) (r : FetchResult (List Message)) : State :=
  let s1 := { s with isLoading := true }
  let s2 :=
    match r with
    | FetchResult.netError => { s1 with error := "Failed to load messages" }
    | FetchResult.response ok _ body =>
        if ok then
          match body with
          | some fetchedMessages => { s1 with messages := fetchedMessages, error := "" }
          | none => { s1 with error := "Failed to load messages" }
        else { s1 with error := "Failed to load messages" }
  { s2 with isLoading := false }

/-- `handleConversationClick` (first variant): selects the clicked
conversation (or `none` when the id is absent from the list), clears the
error and awaits `fetchMessages`; its own catch block is unreachable
because `fetchMessages` never throws. -/
def handleConversationClick (s : State) (conversationId : Nat)
    (r : FetchResult (List Message)) : State :=
  let conversation := s.conversations.find? (fun c => c.id == conversationId)
  fetchMessages { s with currentConversation := conversation, error := "" } r

/-- `handleNewChat` (first variant). -/
def handleNewChat (s : State) : State :=
  { s with currentConversation := none, messages := [], input := "" }

/-- The early-return guard of `handleSend`: `!input.trim() || isLoading`. -/
def sendGuard (s : State) : Bool :=
  jsTrim s.input == "" || s.isLoading

/-- The synchronous prologue of `handleSend`: clear the input, set
loading, clear the error, and record the pending user input. -/
def sendEntry (s : State) : State :=
  { s with input := "", isLoading := true, error := "", pendingUserInput := s.input }

/-- The `finally` block of `handleSend`. -/
def sendFinally (s : State) : State :=
  { s with isLoading := false, pendingUserInput := "" }

/-- The `catch` block of `handleSend`: surfaces an error string (the
interpolated exception text is abstracted to a constant) and restores the
captured user input. -/
def sendCatch (s : State) (userInput : String) : State :=
  { s with error := "Failed to send message", input := userInput }

/-- The tail of `handleSend`'s try block once a conversation id is
settled: `createMessage` (whose throw escapes into the catch, carrying
the state reached so far), then `await fetchMessages` (which never
throws), then clear the pending input. -/
def sendWithConversation (s : State) (env : SendEnv) : Except State State :=
  match createMessage env.createMsg with
  | Except.error _ => Except.error s
  | Except.ok _aiResponse =>
      let s1 := fetchMessages s env.refetch
      Except.ok { s1 with pendingUserInput := "" }

/-- The try block of `handleSend` (first variant).  With no current
conversation it first awaits `createConversation` (title = first 50
characters of the input; the source's `substring(0, 50)` counts UTF-16
units, modelled here as `String.take 50`), selects the new conversation
and fires `fetchConversations` without awaiting it (that call only
updates the conversation list and is tracked in `sendRequests`). -/
def sendTry (s : State) (env : SendEnv) : Except State State :=
  match s.currentConversation with
  | some _conv => sendWithConversation s env
  | none =>
      match createConversation env.createConv with
      | Except.error _ => Except.error s
      | Except.ok newConversation =>
          sendWithConversation { s with currentConversation := some newConversation } env

/-- `handleSend` (first variant), as the state transform from the start
of the handler to its completion. -/
def handleSend (s : State) (env : SendEnv) : State :=
  if sendGuard s then s
  else
    let userInput := s.input
    match sendTry (sendEntry s) env with
    | Except.ok s1 => sendFinally s1
    | Except.error s1 => sendFinally (sendCatch s1 userInput)

/-- The requests issued after a conversation id is settled, each paired
with whether the handler awaits it before issuing the next request (or,
for the last one, before completing). -/
def sendRequestsFrom (conversationId : Nat) (content : String) (env : SendEnv) :
    List (Req × Bool) :=
  match createMessage env.createMsg with
  | Except.error _ => [(Req.postMsg conversationId content, true)]
  | Except.ok _ =>
      [(Req.postMsg conversationId content, true), (Req.getMsgs conversationId, true)]

/-- The request trace of one `handleSend` run (first variant).  The
`fetchConversations()` call after creating a conversation is issued
without `await`, so its flag is `false`: the next request starts while it
may still be in flight. -/
def sendRequests (s : State) (env : SendEnv) : List (Req × Bool) :=
  if sendGuard s then []
  else
    match s.currentConversation with
    | some conv => sendRequestsFrom conv.id s.input env
    | none =>
        match createConversation env.createConv with
        | Except.error _ => [(Req.postConv (jsSubstring s.input 0 50), true)]
        | Except.ok nc =>
            (Req.postConv (jsSubstring s.input 0 50), true) ::
            (Req.listConvs, false) :: sendRequestsFrom nc.id s.input env

end V1

namespace V2

/-- The `useState` cells of the second variant's `App` component (no
`error` and no `pendingUserInput` cell). -/
structure State where
  messages : List Message
  input : String
  conversations : List Conversation
  currentConversation : Option Conversation
  isLoading : Bool
deriving DecidableEq, Repr

/-- `fetchConversations` (second variant): identical shape to the first
variant's, against the hard-coded base URL. -/
def fetchConversations (s : State) (r : FetchResult (List Conversation)) : State :=
  match r with
  | FetchResult.netError => s
  | FetchResult.response _ _ none => s
  | FetchResult.response _ _ (some data) => { s with conversations := data }

/-- `handleConversationClick` (second variant): selects the clicked
conversation, then fetches the messages with NO `response.ok` check: any
response whose body parses replaces the message list, whatever the
status; a rejected fetch or unparseable body is only logged. -/
def handleConversationClick (s : State) (conversationId : Nat)
    (r : FetchResult (List Message)) : State :=
  let conversation := s.conversations.find? (fun c => c.id == conversationId)
  let s1 := { s with currentConversation := conversation }
  match r with
  | FetchResult.netError => s1
  | FetchResult.response _ _ none => s1
  | FetchResult.response _ _ (some messagesData) => { s1 with messages := messagesData }

/-- `handleNewChat` (second variant). -/
def handleNewChat (s : State) : State :=
  { s with currentConversation := none, messages := [], input := "" }

/-- The early-return guard of `handleSend`: `!input.trim() || isLoading`. -/
def sendGuard (s : State) : Bool :=
  jsTrim s.input == "" || s.isLoading

/-- The synchronous prologue of `handleSend`: clear the input and set
loading. -/
def sendEntry (s : State) : State :=
  { s with input := "", isLoading := true }

/-- `currentConversation?.id || 0`, read from the render-time closure:
inside one `handleSend` run this is always the conversation selected when
the handler started, even after `setCurrentConversation`. -/
def entryConversationId (s : State) : Nat :=
  match s.currentConversation with
  | some c => c.id
  | none => 0

/-- The optimistic `tempUserMessage` built from the entry state `s`
(`Date.now()` and `new Date().toISOString()` are the parameters `now` and
`nowIso`). -/
def tempUserMessage (s : State) (now : Nat) (nowIso : String) : Message :=
  { id := now, role := Role.user, content := s.input,
    conversation_id := entryConversationId s, created_at := nowIso }

/-- The `errorMessage` the catch block appends (the interpolated
exception text is abstracted to a constant); note it reads the
render-time `currentConversation`, so its conversation id is the entry
one even when a conversation was created during the run. -/
def errorMessage (s : State) (now : Nat) (nowIso : String) : Message :=
  { id := now + 1, role := Role.assistant, content := "Error",
    conversation_id := entryConversationId s, created_at := nowIso }

/-- `handleSend` (second variant): guard, clear input, set loading,
optimistically append `tempUserMessage`; then (creating a conversation
first when none is selected, with the fixed title `"Conversation"` and an
un-awaited `fetchConversations` tracked in `sendRequests`) await
`createMessage` and append its result, appending `errorMessage` instead
when anything throws; `finally` clears loading.  Input is never
restored. -/
def handleSend (s : State) (env : SendEnv) (now : Nat) (nowIso : String) : State :=
  if sendGuard s then s
  else
    let s2 := { sendEntry s with messages := s.messages ++ [tempUserMessage s now nowIso] }
    let afterTry : State :=
      match s.currentConversation with
      | some _conv =>
          match createMessage env.createMsg with
          | Except.error _ => { s2 with messages := s2.messages ++ [errorMessage s now nowIso] }
          | Except.ok aiResponse => { s2 with messages := s2.messages ++ [aiResponse] }
      | none =>
          match createConversation env.createConv with
          | Except.error _ => { s2 with messages := s2.messages ++ [errorMessage s now nowIso] }
          | Except.ok newConversation =>
              let s3 := { s2 with currentConversation := some newConversation }
              match createMessage env.createMsg with
              | Except.error _ =>
                  { s3 with messages := s3.messages ++ [errorMessage s now nowIso] }
              | Except.ok aiResponse => { s3 with messages := s3.messages ++ [aiResponse] }
    { afterTry with isLoading := false }

/-- The request trace of one `handleSend` run (second variant): no
refetch; the `fetchConversations()` after creating a conversation is
fired without `await` (flag `false`). -/
def sendRequests (s : State) (env : SendEnv) : List (Req × Bool) :=
  if sendGuard s then []
  else
    match s.currentConversation with
    | some conv => [(Req.postMsg conv.id s.input, true)]
    | none =>
        match createConversation env.createConv with
        | Except.error _ => [(Req.postConv "Conversation", true)]
        | Except.ok nc =>
            [(Req.postConv "Conversation", true), (Req.listConvs, false),
             (Req.postMsg nc.id s.input, true)]

end V2

/-- The list a successful fetch-messages call returns in the first
variant: an `ok` response whose body parses.  Used to state what the
displayed list becomes after `handleConversationClick`. -/
def fetchedOk : FetchResult (List Message) → Option (List Message)
  | FetchResult.response true _ (some L) => some L
  | _ => none

/-- The list the second variant's `handleConversationClick` accepts: any
response whose body parses, the status being ignored. -/
def parsedBody : FetchResult (List Message) → Option (List Message)
  | FetchResult.response _ _ (some L) => some L
  | _ => none

/-- Fixture: a first-variant state with no conversation selected, empty
history, idle, and the given input text. -/
def mkStateV1 (inp : String) : V1.State :=
  { messages := [], input := inp, conversations := [],
    currentConversation := none, isLoading := false,
    pendingUserInput := "", error := "" }

/-- Fixture: a second-variant state with no conversation selected, empty
history, idle, and the given input text. -/
def mkStateV2 (inp : String) : V2.State :=
  { messages := [], input := inp, conversations := [],
    currentConversation := none, isLoading := false }

/-- Fixture: an environment in which every fetch rejects. -/
def envAllFail : SendEnv :=
  { createConv := FetchResult.netError, createMsg := FetchResult.netError,
    refetch := FetchResult.netError }

/-- C5: for every input string that is empty or consists only of
whitespace (so that `input.trim()` is empty), `handleSend` performs no
network call and leaves all state unchanged, in both variants. -/
theorem claim_C5 (s1 : V1.State) (env1 : SendEnv) (s2 : V2.State) (env2 : SendEnv)
    (now : Nat) (nowIso : String)
    (h1 : jsTrim s1.input = "") (h2 : jsTrim s2.input = "") :
    V1.handleSend s1 env1 = s1 ∧ V1.sendRequests s1 env1 = [] ∧
    V2.handleSend s2 env2 now nowIso = s2 ∧ V2.sendRequests s2 env2 = [] := by
  have g1 : V1.sendGuard s1 = true := by simp [V1.sendGuard, h1]
  have g2 : V2.sendGuard s2 = true := by simp [V2.sendGuard, h2]
  refine ⟨?_, ?_, ?_, ?_⟩ <;>
    simp [V1.handleSend, V1.sendRequests, V2.handleSend, V2.sendRequests, g1, g2]

/-- Witness for C5 at the whitespace-only input `"  "`. -/
theorem claim_C5_witness :
    V1.handleSend (mkStateV1 "  ") envAllFail = mkStateV1 "  " ∧
    V2.sendRequests (mkStateV2 "  ") envAllFail = [] := by
  have h := claim_C5 (mkStateV1 "  ") envAllFail (mkStateV2 "  ") envAllFail 0 ""
    (by decide) (by decide)
  exact ⟨h.1, h.2.2.2⟩

/-- C8: in every state, `handleNewChat` empties the message list, clears
the input and deselects the conversation, in both variants. -/
theorem claim_C8 (s1 : V1.State) (s2 : V2.State) :
    (V1.handleNewChat s1).messages = [] ∧ (V1.handleNewChat s1).input = "" ∧
    (V1.handleNewChat s1).currentConversation = none ∧
    (V2.handleNewChat s2).messages = [] ∧ (V2.handleNewChat s2).input = "" ∧
    (V2.handleNewChat s2).currentConversation = none := by
  refine ⟨rfl, rfl, rfl, rfl, rfl, rfl⟩

/-- C9: the loading flag is the only state machine: whenever the send
guard passes, the synchronous prologue of `handleSend` sets `isLoading`,
and on every completion path (success or failure, any environment) the
handler ends with `isLoading = false`, in both variants. -/
theorem claim_C9 (s1 : V1.State) (env1 : SendEnv) (s2 : V2.State) (env2 : SendEnv)
    (now : Nat) (nowIso : String)
    (h1 : V1.sendGuard s1 = false) (h2 : V2.sendGuard s2 = false) :
    (V1.sendEntry s1).isLoading = true ∧ (V1.handleSend s1 env1).isLoading = false ∧
    (V2.sendEntry s2).isLoading = true ∧
    (V2.handleSend s2 env2 now nowIso).isLoading = false := by
  refine ⟨rfl, ?_, rfl, ?_⟩
  · unfold V1.handleSend
    rw [h1]
    simp only [Bool.false_eq_true, if_false]
    cases V1.sendTry (V1.sendEntry s1) env1 with
    | ok s' => rfl
    | error s' => rfl
  · unfold V2.handleSend
    rw [h2]
    simp only [Bool.false_eq_true, if_false]

/-- Witness for C9 with a nonempty input and an idle state. -/
theorem claim_C9_witness :
    (V1.handleSend (mkStateV1 "hi") envAllFail).isLoading = false ∧
    (V2.handleSend (mkStateV2 "hi") envAllFail 0 "").isLoading = false := by
  have h := claim_C9 (mkStateV1 "hi") envAllFail (mkStateV2 "hi") envAllFail 0 ""
    (by decide) (by decide)
  exact ⟨h.2.1, h.2.2.2⟩

/-- C10: when the guard passes and no conversation is selected, the first
request of the send is the conversation-creation POST, whose title is the
first 50 characters of the input in the first variant and the fixed
string `"Conversation"` in the second. -/
theorem claim_C10 (s1 : V1.State) (env1 : SendEnv) (s2 : V2.State) (env2 : SendEnv)
    (h1g : V1.sendGuard s1 = false) (h1c : s1.currentConversation = none)
    (h2g : V2.sendGuard s2 = false) (h2c : s2.currentConversation = none) :
    (V1.sendRequests s1 env1).head? = some (Req.postConv (jsSubstring s1.input 0 50), true) ∧
    (V2.sendRequests s2 env2).head? = some (Req.postConv "Conversation", true) := by
  constructor
  · unfold V1.sendRequests
    rw [h1g, h1c]
    simp only [Bool.false_eq_true, if_false]
    cases createConversation env1.createConv with
    | error e => rfl
    | ok nc => rfl
  · unfold V2.sendRequests
    rw [h2g, h2c]
    simp only [Bool.false_eq_true, if_false]
    cases createConversation env2.createConv with
    | error e => rfl
    | ok nc => rfl

/-- Witness for C10: the input `"a short message"` yields itself as the
title in the first variant (shorter than 50 characters) and the fixed
title in the second. -/
theorem claim_C10_witness :
    (V1.sendRequests (mkStateV1 "a short message") envAllFail).head?
      = some (Req.postConv "a short message", true) ∧
    (V2.sendRequests (mkStateV2 "a short message") envAllFail).head?
      = some (Req.postConv "Conversation", true) := by
  have h := claim_C10 (mkStateV1 "a short message") envAllFail
    (mkStateV2 "a short message") envAllFail (by decide) rfl (by decide) rfl
  refine ⟨?_, h.2⟩
  rw [h.1]
  rfl

/-- Every request issued after the conversation id is settled in the
first variant's `handleSend` is awaited before the next one. -/
theorem V1.sendRequestsFrom_awaited (conversationId : Nat) (content : String)
    (env : SendEnv) (p : Req × Bool)
    (hp : p ∈ V1.sendRequestsFrom conversationId content env) : p.2 = true := by
  unfold V1.sendRequestsFrom at hp
  split at hp <;> simp only [List.mem_cons, List.mem_singleton,
    List.not_mem_nil, or_false] at hp
  · rw [hp]
  · rcases hp with hp | hp <;> rw [hp]

/-- In the first variant, the only request `handleSend` does not await is
the `fetchConversations` refresh fired after creating a conversation. -/
theorem V1.unawaited_is_listConvs_fst (s : V1.State) (env : SendEnv) (p : Req × Bool)
    (hp : p ∈ V1.sendRequests s env) (hf : p.2 = false) : p.1 = Req.listConvs := by
  unfold V1.sendRequests at hp
  split at hp
  · simp at hp
  · split at hp
    · rw [V1.sendRequestsFrom_awaited _ _ _ _ hp] at hf
      exact Bool.noConfusion hf
    · split at hp
      · simp only [List.mem_singleton] at hp
        rw [hp] at hf
        simp at hf
      · simp only [List.mem_cons] at hp
        rcases hp with hp | hp | hp
        · rw [hp] at hf
          simp at hf
        · rw [hp]
        · rw [V1.sendRequestsFrom_awaited _ _ _ _ hp] at hf
          exact Bool.noConfusion hf

/-- In the second variant, the only request `handleSend` does not await
is the `fetchConversations` refresh fired after creating a conversation. -/
theorem V2.unawaited_is_listConvs_snd (s : V2.State) (env : SendEnv) (p : Req × Bool)
    (hp : p ∈ V2.sendRequests s env) (hf : p.2 = false) : p.1 = Req.listConvs := by
  unfold V2.sendRequests at hp
  split at hp
  · simp at hp
  · split at hp
    · simp only [List.mem_singleton] at hp
      rw [hp] at hf
      simp at hf
    · split at hp
      · simp only [List.mem_singleton] at hp
        rw [hp] at hf
        simp at hf
      · simp only [List.mem_cons, List.mem_singleton, List.not_mem_nil, or_false] at hp
        rcases hp with hp | hp | hp
        · rw [hp] at hf
          simp at hf
        · rw [hp]
        · rw [hp] at hf
          simp at hf

/-- Fixture for C3: an environment in which every request succeeds. -/
def envC3 : SendEnv :=
  { createConv := FetchResult.response true 201
      (some { id := 1, title := "hi", created_at := "t" }),
    createMsg := FetchResult.response true 201
      (some { id := 2, role := Role.assistant, content := "ok",
              conversation_id := 1, created_at := "t" }),
    refetch := FetchResult.response true 200 (some []) }

/-- C3 counterexample: sending `"hi"` with no conversation selected makes
both variants fire the `GET /conversations/` refresh without awaiting it,
so the subsequent send-message POST can be in flight simultaneously with
it — the requests of a send are not strictly sequential. -/
theorem claim_C3_counterexample :
    ¬ (∀ p ∈ V1.sendRequests (mkStateV1 "hi") envC3, p.2 = true) ∧
    ¬ (∀ p ∈ V2.sendRequests (mkStateV2 "hi") envC3, p.2 = true) := by
  decide

/-- C3 amended: within one send, every request is awaited before the next
one is issued, EXCEPT the conversation-list refresh fired right after
creating a conversation, which is not awaited and may overlap the
send-message POST that follows it; this holds in both variants. -/
theorem claim_C3 (s1 : V1.State) (env1 : SendEnv) (s2 : V2.State) (env2 : SendEnv)
    (p q : Req × Bool)
    (hp : p ∈ V1.sendRequests s1 env1) (hpf : p.2 = false)
    (hq : q ∈ V2.sendRequests s2 env2) (hqf : q.2 = false) :
    p.1 = Req.listConvs ∧ q.1 = Req.listConvs :=
  ⟨V1.unawaited_is_listConvs_fst s1 env1 p hp hpf,
   V2.unawaited_is_listConvs_snd s2 env2 q hq hqf⟩

/-- Witness for C3 at the trace of the counterexample run. -/
theorem claim_C3_witness :
    (Req.listConvs, false).1 = Req.listConvs ∧
    (Req.listConvs, false).1 = Req.listConvs :=
  claim_C3 (mkStateV1 "hi") envC3 (mkStateV2 "hi") envC3
    (Req.listConvs, false) (Req.listConvs, false)
    (by decide) rfl (by decide) rfl

/-- Fixture: a conversation with id 1. -/
def convA : Conversation := { id := 1, title := "t", created_at := "d" }

/-- Fixture for C1: a second-variant state with conversation `convA`
selected and the input `"hi"`. -/
def c1State : V2.State :=
  { messages := [], input := "hi", conversations := [convA],
    currentConversation := some convA, isLoading := false }

/-- Fixture for C1: the send-message POST returns status 500. -/
def c1Env : SendEnv :=
  { createConv := FetchResult.netError,
    createMsg := FetchResult.response false 500 none,
    refetch := FetchResult.netError }

/-- C1 counterexample: in the second variant, a send of `"hi"` whose
message POST returns 500 completes with the input still empty — the
submitted text is NOT restored, contradicting the claim for that
variant. -/
theorem claim_C1_counterexample :
    createMessage c1Env.createMsg = Except.error () ∧
    (V2.handleSend c1State c1Env 10 "T").input ≠ c1State.input := by
  refine ⟨rfl, by decide⟩

/-- C1 amended: on a failed send the FIRST variant restores the input
text, while the SECOND variant leaves the input empty and appends the
optimistic user message followed by a locally built error message; in
both variants the selection is unchanged unless the send began with no
conversation selected and the conversation-creation call succeeded, in
which case the newly created conversation remains selected. -/
theorem claim_C1 (s1 : V1.State) (env1 : SendEnv) (s2 : V2.State) (env2 : SendEnv)
    (now : Nat) (nowIso : String)
    (h1g : V1.sendGuard s1 = false)
    (h1f : (s1.currentConversation = none ∧
            createConversation env1.createConv = Except.error ()) ∨
           createMessage env1.createMsg = Except.error ())
    (h2g : V2.sendGuard s2 = false)
    (h2f : (s2.currentConversation = none ∧
            createConversation env2.createConv = Except.error ()) ∨
           createMessage env2.createMsg = Except.error ()) :
    ((V1.handleSend s1 env1).input = s1.input ∧
     ((V1.handleSend s1 env1).currentConversation = s1.currentConversation ∨
      (s1.currentConversation = none ∧ ∃ c,
        createConversation env1.createConv = Except.ok c ∧
        (V1.handleSend s1 env1).currentConversation = some c))) ∧
    ((V2.handleSend s2 env2 now nowIso).input = "" ∧
     (V2.handleSend s2 env2 now nowIso).messages =
       s2.messages ++ [V2.tempUserMessage s2 now nowIso, V2.errorMessage s2 now nowIso] ∧
     ((V2.handleSend s2 env2 now nowIso).currentConversation = s2.currentConversation ∨
      (s2.currentConversation = none ∧ ∃ c,
        createConversation env2.createConv = Except.ok c ∧
        (V2.handleSend s2 env2 now nowIso).currentConversation = some c))) := by
  constructor
  · cases hc : s1.currentConversation with
    | some conv =>
        have hm : createMessage env1.createMsg = Except.error () := by
          rcases h1f with ⟨hn, _⟩ | hm
          · rw [hc] at hn
            exact Option.noConfusion hn
          · exact hm
        simp [V1.handleSend, h1g, V1.sendTry, V1.sendEntry, hc,
          V1.sendWithConversation, hm, V1.sendCatch, V1.sendFinally]
    | none =>
        cases hcc : createConversation env1.createConv with
        | error e =>
            simp [V1.handleSend, h1g, V1.sendTry, V1.sendEntry, hc, hcc,
              V1.sendCatch, V1.sendFinally]
        | ok nc =>
            have hm : createMessage env1.createMsg = Except.error () := by
              rcases h1f with ⟨_, hce⟩ | hm
              · rw [hcc] at hce
                exact Except.noConfusion hce
              · exact hm
            constructor
            · simp [V1.handleSend, h1g, V1.sendTry, V1.sendEntry, hc, hcc,
                V1.sendWithConversation, hm, V1.sendCatch, V1.sendFinally]
            · right
              refine ⟨rfl, nc, rfl, ?_⟩
              simp [V1.handleSend, h1g, V1.sendTry, V1.sendEntry, hc, hcc,
                V1.sendWithConversation, hm, V1.sendCatch, V1.sendFinally]
  · cases hc : s2.currentConversation with
    | some conv =>
        have hm : createMessage env2.createMsg = Except.error () := by
          rcases h2f with ⟨hn, _⟩ | hm
          · rw [hc] at hn
            exact Option.noConfusion hn
          · exact hm
        simp [V2.handleSend, h2g, V2.sendEntry, hc, hm]
    | none =>
        cases hcc : createConversation env2.createConv with
        | error e =>
            simp [V2.handleSend, h2g, V2.sendEntry, hc, hcc]
        | ok nc =>
            have hm : createMessage env2.createMsg = Except.error () := by
              rcases h2f with ⟨_, hce⟩ | hm
              · rw [hcc] at hce
                exact Except.noConfusion hce
              · exact hm
            refine ⟨?_, ?_, ?_⟩
            · simp [V2.handleSend, h2g, V2.sendEntry, hc, hcc, hm]
            · simp [V2.handleSend, h2g, V2.sendEntry, hc, hcc, hm]
            · right
              refine ⟨rfl, nc, rfl, ?_⟩
              simp [V2.handleSend, h2g, V2.sendEntry, hc, hcc, hm]

/-- Witness for C1 at the counterexample's inputs, and a first-variant
run from the matching state: the first variant restores `"hi"`, the
second leaves the input empty. -/
theorem claim_C1_witness :
    (V1.handleSend (mkStateV1 "hi") c1Env).input = (mkStateV1 "hi").input ∧
    (V2.handleSend c1State c1Env 10 "T").input = "" := by
  have h := claim_C1 (mkStateV1 "hi") c1Env c1State c1Env 10 "T"
    (by decide) (Or.inl ⟨rfl, rfl⟩) (by decide) (Or.inr rfl)
  exact ⟨h.1.1, h.2.1⟩

/-- Fixture for C2: a message the backend's 404 body happens to parse to. -/
def c2Msg : Message :=
  { id := 9, role := Role.assistant, content := "not found",
    conversation_id := 7, created_at := "d" }

/-- C2 counterexample: in the second variant, clicking a conversation
whose messages GET returns status 404 with a parseable body produces the
normal result — the displayed list is replaced by that body and no error
is observable anywhere (the variant has no error state) — contradicting
the claim that every fetch-messages path fails the caller-visible
operation on a non-successful status. -/
theorem claim_C2_counterexample :
    (V2.handleConversationClick (mkStateV2 "") 7
        (FetchResult.response false 404 (some [c2Msg]))).messages = [c2Msg] ∧
    (V2.handleConversationClick (mkStateV2 "") 7
        (FetchResult.response false 404 (some [c2Msg]))).messages
      ≠ (mkStateV2 "").messages := by
  refine ⟨rfl, by decide⟩

/-- C2 amended: only the FIRST variant fails the operation on a
non-successful status — `fetchMessages` (also when reached through
`handleConversationClick`) leaves the message list untouched and sets the
user-visible error string; the SECOND variant's `handleConversationClick`
ignores the HTTP status entirely and replaces the message list with any
response body that parses. -/
theorem claim_C2 (s1 : V1.State) (status : Nat) (body : Option (List Message))
    (cid1 : Nat) (s2 : V2.State) (cid2 : Nat) (L : List Message) (ok : Bool)
    (st2 : Nat) :
    (V1.fetchMessages s1 (FetchResult.response false status body)).error
      = "Failed to load messages" ∧
    (V1.fetchMessages s1 (FetchResult.response false status body)).messages
      = s1.messages ∧
    (V1.handleConversationClick s1 cid1 (FetchResult.response false status body)).error
      = "Failed to load messages" ∧
    (V1.handleConversationClick s1 cid1 (FetchResult.response false status body)).messages
      = s1.messages ∧
    (V2.handleConversationClick s2 cid2 (FetchResult.response ok st2 (some L))).messages
      = L := by
  refine ⟨rfl, rfl, rfl, rfl, rfl⟩

/-- Fixture for C6: a message of conversation 1 already on display. -/
def c6Msg : Message :=
  { id := 1, role := Role.user, content := "old", conversation_id := 1,
    created_at := "d" }

/-- Fixture for C6: a first-variant state displaying conversation 1's
message. -/
def c6State : V1.State :=
  { messages := [c6Msg], input := "", conversations := [],
    currentConversation := none, isLoading := false,
    pendingUserInput := "", error := "" }

/-- C6 counterexample: clicking conversation 2 while its messages GET
rejects is a completion path of `handleConversationClick` on which the
backend returned no sequence at all, yet the display still shows
conversation 1's message — so the displayed list is not "exactly the
backend's returned sequence for that id" on every completion path. -/
theorem claim_C6_counterexample :
    (V1.handleConversationClick c6State 2 FetchResult.netError).messages = [c6Msg] ∧
    c6Msg.conversation_id ≠ 2 ∧
    fetchedOk FetchResult.netError = none := by
  refine ⟨rfl, by decide, rfl⟩

/-- C6 amended: the displayed list after `handleConversationClick` is the
backend's returned sequence when the fetch succeeds (an ok status and a
parseable body in the first variant; any parseable body, the status being
ignored, in the second), and otherwise remains the previously displayed
list. -/
theorem claim_C6 (s1 : V1.State) (cid1 : Nat) (r1 : FetchResult (List Message))
    (s2 : V2.State) (cid2 : Nat) (r2 : FetchResult (List Message)) :
    (V1.handleConversationClick s1 cid1 r1).messages
      = (fetchedOk r1).getD s1.messages ∧
    (V2.handleConversationClick s2 cid2 r2).messages
      = (parsedBody r2).getD s2.messages := by
  constructor
  · cases r1 with
    | netError => rfl
    | response ok st body =>
        cases ok <;> cases body <;> rfl
  · cases r2 with
    | netError => rfl
    | response ok st body =>
        cases body <;> rfl

/-- The message list `fetchMessages` leaves: the fetched list on success,
the previous list otherwise. -/
theorem V1.fetchMessages_messages (s : V1.State) (r : FetchResult (List Message)) :
    (V1.fetchMessages s r).messages = (fetchedOk r).getD s.messages := by
  cases r with
  | netError => rfl
  | response ok st body => cases ok <;> cases body <;> rfl

/-- A failing `sendWithConversation` propagates the state it was given:
in particular the message list is unchanged. -/
theorem V1.sendWithConversation_error_messages (s : V1.State) (env : SendEnv)
    (s' : V1.State) (h : V1.sendWithConversation s env = Except.error s') :
    s'.messages = s.messages := by
  unfold V1.sendWithConversation at h
  cases hm : createMessage env.createMsg <;> rw [hm] at h
  · simp only [Except.error.injEq] at h
    rw [← h]
  · exact Except.noConfusion h

/-- A successful `sendWithConversation` ends with the refetched list on a
successful refetch and the previous list otherwise. -/
theorem V1.sendWithConversation_ok_messages (s : V1.State) (env : SendEnv)
    (s' : V1.State) (h : V1.sendWithConversation s env = Except.ok s') :
    s'.messages = (fetchedOk env.refetch).getD s.messages := by
  unfold V1.sendWithConversation at h
  cases hm : createMessage env.createMsg <;> rw [hm] at h
  · exact Except.noConfusion h
  · simp only [Except.ok.injEq] at h
    rw [← h]
    exact V1.fetchMessages_messages s env.refetch

/-- A failing try block of the first variant's `handleSend` leaves the
message list unchanged. -/
theorem V1.sendTry_error_messages (s : V1.State) (env : SendEnv) (s' : V1.State)
    (h : V1.sendTry s env = Except.error s') : s'.messages = s.messages := by
  unfold V1.sendTry at h
  cases hc : s.currentConversation <;> simp only [hc] at h
  · cases hcc : createConversation env.createConv <;> simp only [hcc] at h
    · simp only [Except.error.injEq] at h
      rw [← h]
    · have hx := V1.sendWithConversation_error_messages _ env s' h
      exact hx
  · exact V1.sendWithConversation_error_messages _ env s' h

/-- A successful try block of the first variant's `handleSend` ends with
the refetched list on a successful refetch and the previous list
otherwise. -/
theorem V1.sendTry_ok_messages (s : V1.State) (env : SendEnv) (s' : V1.State)
    (h : V1.sendTry s env = Except.ok s') :
    s'.messages = (fetchedOk env.refetch).getD s.messages := by
  unfold V1.sendTry at h
  cases hc : s.currentConversation <;> simp only [hc] at h
  · cases hcc : createConversation env.createConv <;> simp only [hcc] at h
    · exact Except.noConfusion h
    · have hx := V1.sendWithConversation_ok_messages _ env s' h
      exact hx
  · exact V1.sendWithConversation_ok_messages _ env s' h

/-- The first variant's `handleSend` displays, at completion, either the
previous message list or a list the refetch successfully returned. -/
theorem V1.handleSend_messages (s : V1.State) (env : SendEnv) :
    (V1.handleSend s env).messages = s.messages ∨
    ∃ L, fetchedOk env.refetch = some L ∧ (V1.handleSend s env).messages = L := by
  unfold V1.handleSend
  cases hg : V1.sendGuard s
  · simp only [Bool.false_eq_true, if_false]
    cases hst : V1.sendTry (V1.sendEntry s) env with
    | error s1 =>
        left
        have hmsg := V1.sendTry_error_messages _ env s1 hst
        simpa [V1.sendFinally, V1.sendCatch, V1.sendEntry] using hmsg
    | ok s1 =>
        have hmsg := V1.sendTry_ok_messages _ env s1 hst
        cases hr : fetchedOk env.refetch with
        | none =>
            left
            rw [hr] at hmsg
            simpa [V1.sendFinally, V1.sendEntry] using hmsg
        | some L =>
            right
            refine ⟨L, rfl, ?_⟩
            rw [hr] at hmsg
            simpa [V1.sendFinally] using hmsg
  · simp

/-- Fixture for C4: a second-variant state whose conversation list holds
only `convA` (id 1) and with no conversation selected. -/
def c4State : V2.State :=
  { messages := [], input := "hi", conversations := [convA],
    currentConversation := none, isLoading := false }

/-- C4 counterexample: sending with no conversation selected while the
conversation-creation POST rejects leaves the second variant displaying
messages whose `conversation_id` is 0 — the id of no existing
conversation — so not every displayed message belongs to an existing
conversation. -/
theorem claim_C4_counterexample :
    ∃ m ∈ (V2.handleSend c4State envAllFail 10 "T").messages,
      ∀ c ∈ (V2.handleSend c4State envAllFail 10 "T").conversations,
        c.id ≠ m.conversation_id := by
  decide

/-- C4 amended: the role invariant holds (every message's role is one of
the two values, enforced by the data model), and every displayed message
either was already displayed, or came from the backend, or — in the
second variant — is a locally constructed message whose conversation id
is the id of the conversation selected when the send began, or 0 when
none was selected; that id need not belong to any existing conversation.
The first variant never constructs messages locally. -/
theorem claim_C4 (s1 : V1.State) (env1 : SendEnv) (s2 : V2.State) (env2 : SendEnv)
    (now : Nat) (nowIso : String) (m1 m2 : Message)
    (hm1 : m1 ∈ (V1.handleSend s1 env1).messages)
    (hm2 : m2 ∈ (V2.handleSend s2 env2 now nowIso).messages) :
    (m1 ∈ s1.messages ∨ ∃ L, fetchedOk env1.refetch = some L ∧ m1 ∈ L) ∧
    (m2 ∈ s2.messages ∨ createMessage env2.createMsg = Except.ok m2 ∨
     (m2.conversation_id = V2.entryConversationId s2 ∧
      (m2.role = Role.user ∨ m2.role = Role.assistant))) := by
  constructor
  · rcases V1.handleSend_messages s1 env1 with hmsg | ⟨L, hL, hmsg⟩
    · left
      rw [hmsg] at hm1
      exact hm1
    · right
      refine ⟨L, hL, ?_⟩
      rw [hmsg] at hm1
      exact hm1
  · cases hg : V2.sendGuard s2 with
    | true =>
        left
        simp only [V2.handleSend, hg, if_true] at hm2
        exact hm2
    | false =>
        have hmem : m2 ∈ s2.messages ++ [V2.tempUserMessage s2 now nowIso] ∨
            createMessage env2.createMsg = Except.ok m2 ∨
            m2 = V2.errorMessage s2 now nowIso := by
          cases hc : s2.currentConversation with
          | some conv =>
              cases hm : createMessage env2.createMsg with
              | error e =>
                  simp only [V2.handleSend, hg, Bool.false_eq_true, if_false, hc, hm,
                    V2.sendEntry, List.mem_append, List.mem_singleton] at hm2
                  rcases hm2 with (hm2 | hm2) | hm2
                  · exact Or.inl (by simp [hm2])
                  · exact Or.inl (by simp [hm2])
                  · exact Or.inr (Or.inr hm2)
              | ok ai =>
                  simp only [V2.handleSend, hg, Bool.false_eq_true, if_false, hc, hm,
                    V2.sendEntry, List.mem_append, List.mem_singleton] at hm2
                  rcases hm2 with (hm2 | hm2) | hm2
                  · exact Or.inl (by simp [hm2])
                  · exact Or.inl (by simp [hm2])
                  · exact Or.inr (Or.inl (by subst hm2; rfl))
          | none =>
              cases hcc : createConversation env2.createConv with
              | error e =>
                  simp only [V2.handleSend, hg, Bool.false_eq_true, if_false, hc, hcc,
                    V2.sendEntry, List.mem_append, List.mem_singleton] at hm2
                  rcases hm2 with (hm2 | hm2) | hm2
                  · exact Or.inl (by simp [hm2])
                  · exact Or.inl (by simp [hm2])
                  · exact Or.inr (Or.inr hm2)
              | ok nc =>
                  cases hm : createMessage env2.createMsg with
                  | error e =>
                      simp only [V2.handleSend, hg, Bool.false_eq_true, if_false, hc,
                        hcc, hm, V2.sendEntry, List.mem_append,
                        List.mem_singleton] at hm2
                      rcases hm2 with (hm2 | hm2) | hm2
                      · exact Or.inl (by simp [hm2])
                      · exact Or.inl (by simp [hm2])
                      · exact Or.inr (Or.inr hm2)
                  | ok ai =>
                      simp only [V2.handleSend, hg, Bool.false_eq_true, if_false, hc,
                        hcc, hm, V2.sendEntry, List.mem_append,
                        List.mem_singleton] at hm2
                      rcases hm2 with (hm2 | hm2) | hm2
                      · exact Or.inl (by simp [hm2])
                      · exact Or.inl (by simp [hm2])
                      · exact Or.inr (Or.inl (by subst hm2; rfl))
        rcases hmem with hmem | hmem | hmem
        · rw [List.mem_append, List.mem_singleton] at hmem
          rcases hmem with hmem | hmem
          · exact Or.inl hmem
          · refine Or.inr (Or.inr ⟨?_, Or.inl ?_⟩) <;> rw [hmem] <;> rfl
        · exact Or.inr (Or.inl hmem)
        · refine Or.inr (Or.inr ⟨?_, Or.inr ?_⟩) <;> rw [hmem] <;> rfl

/-- Witness for C4: a run of each variant with a failing send; the
optimistic user message of the second variant satisfies the amended
disjunction through its locally constructed conversation id. -/
theorem claim_C4_witness :
    (c6Msg ∈ c6State.messages ∨
     ∃ L, fetchedOk envAllFail.refetch = some L ∧ c6Msg ∈ L) ∧
    (V2.tempUserMessage c4State 10 "T" ∈ c4State.messages ∨
     createMessage envAllFail.createMsg
       = Except.ok (V2.tempUserMessage c4State 10 "T") ∨
     ((V2.tempUserMessage c4State 10 "T").conversation_id
        = V2.entryConversationId c4State ∧
      ((V2.tempUserMessage c4State 10 "T").role = Role.user ∨
       (V2.tempUserMessage c4State 10 "T").role = Role.assistant))) :=
  claim_C4 c6State envAllFail c4State envAllFail 10 "T"
    c6Msg (V2.tempUserMessage c4State 10 "T") (by decide) (by decide)

/-- On a fully successful send in the first variant (guard passed, a
conversation available or successfully created, message POST ok, refetch
ok), the displayed list at completion is exactly the refetched list. -/
theorem V1.handleSend_success_messages_fst (s : V1.State) (env : SendEnv)
    (st : Nat) (L : List Message) (ai : Message)
    (hg : V1.sendGuard s = false)
    (hc : s.currentConversation = none →
      ∃ c, createConversation env.createConv = Except.ok c)
    (hm : createMessage env.createMsg = Except.ok ai)
    (hr : env.refetch = FetchResult.response true st (some L)) :
    (V1.handleSend s env).messages = L := by
  cases hcase : s.currentConversation with
  | some conv =>
      simp [V1.handleSend, hg, V1.sendTry, V1.sendEntry, hcase,
        V1.sendWithConversation, hm, V1.fetchMessages, hr, V1.sendFinally]
  | none =>
      obtain ⟨c, hcc⟩ := hc hcase
      simp [V1.handleSend, hg, V1.sendTry, V1.sendEntry, hcase, hcc,
        V1.sendWithConversation, hm, V1.fetchMessages, hr, V1.sendFinally]

/-- On a successful send in the second variant, the displayed list at
completion is the previous history followed by the optimistic user
message and the backend's reply, in that order. -/
theorem V2.handleSend_success_messages_snd (s : V2.State) (env : SendEnv)
    (now : Nat) (nowIso : String) (ai : Message)
    (hg : V2.sendGuard s = false)
    (hc : s.currentConversation = none →
      ∃ c, createConversation env.createConv = Except.ok c)
    (hm : createMessage env.createMsg = Except.ok ai) :
    (V2.handleSend s env now nowIso).messages
      = s.messages ++ [V2.tempUserMessage s now nowIso, ai] := by
  cases hcase : s.currentConversation with
  | some conv =>
      simp [V2.handleSend, hg, hcase, hm, V2.sendEntry]
  | none =>
      obtain ⟨c, hcc⟩ := hc hcase
      simp [V2.handleSend, hg, hcase, hcc, hm, V2.sendEntry]

/-- C7: after a successful send the new message(s) appear in the thread
(the backend reply in the first variant, provided the refetched history
contains it; the optimistic user message and the reply in the second),
and no message displayed before the send appears more than once
afterwards — given that the backend introduces no collisions (the
refetched list is duplicate-free; the reply and the optimistic message
are not already in the history). -/
theorem claim_C7 (s1 : V1.State) (env1 : SendEnv) (ai1 : Message)
    (st : Nat) (L : List Message)
    (s2 : V2.State) (env2 : SendEnv) (ai2 : Message) (now : Nat) (nowIso : String)
    (h1g : V1.sendGuard s1 = false)
    (h1c : s1.currentConversation = none →
      ∃ c, createConversation env1.createConv = Except.ok c)
    (h1m : createMessage env1.createMsg = Except.ok ai1)
    (h1r : env1.refetch = FetchResult.response true st (some L))
    (h1mem : ai1 ∈ L) (h1nd : ∀ m ∈ L, L.count m ≤ 1)
    (h2g : V2.sendGuard s2 = false)
    (h2c : s2.currentConversation = none →
      ∃ c, createConversation env2.createConv = Except.ok c)
    (h2m : createMessage env2.createMsg = Except.ok ai2)
    (h2nd : ∀ m ∈ s2.messages, s2.messages.count m ≤ 1)
    (h2t : V2.tempUserMessage s2 now nowIso ∉ s2.messages)
    (h2a : ai2 ∉ s2.messages) :
    (ai1 ∈ (V1.handleSend s1 env1).messages ∧
     ∀ m ∈ s1.messages, ((V1.handleSend s1 env1).messages).count m ≤ 1) ∧
    (ai2 ∈ (V2.handleSend s2 env2 now nowIso).messages ∧
     V2.tempUserMessage s2 now nowIso ∈ (V2.handleSend s2 env2 now nowIso).messages ∧
     ∀ m ∈ s2.messages, ((V2.handleSend s2 env2 now nowIso).messages).count m ≤ 1) := by
  have e1 := V1.handleSend_success_messages_fst s1 env1 st L ai1 h1g h1c h1m h1r
  have e2 := V2.handleSend_success_messages_snd s2 env2 now nowIso ai2 h2g h2c h2m
  refine ⟨⟨?_, ?_⟩, ?_, ?_, ?_⟩
  · rw [e1]
    exact h1mem
  · intro m _hm
    rw [e1]
    by_cases hmL : m ∈ L
    · exact h1nd m hmL
    · rw [List.count_eq_zero_of_not_mem hmL]
      exact Nat.zero_le 1
  · rw [e2]
    simp
  · rw [e2]
    simp
  · intro m hm
    rw [e2]
    have hne1 : m ≠ V2.tempUserMessage s2 now nowIso := fun h => h2t (h ▸ hm)
    have hne2 : m ≠ ai2 := fun h => h2a (h ▸ hm)
    have hnot : m ∉ [V2.tempUserMessage s2 now nowIso, ai2] := by
      simp [hne1, hne2]
    rw [List.count_append, List.count_eq_zero_of_not_mem hnot, Nat.add_zero]
    exact h2nd m hm

/-- Fixture for C7: the backend's reply message, in conversation 1. -/
def aiMsg : Message :=
  { id := 3, role := Role.assistant, content := "re", conversation_id := 1,
    created_at := "t" }

/-- Fixture for C7: a state of either shape with conversation 1 selected
and the input `"hi"`; the environment answers the message POST with
`aiMsg` and the refetch with `[aiMsg]`. -/
def c7StateV1 : V1.State :=
  { messages := [], input := "hi", conversations := [convA],
    currentConversation := some convA, isLoading := false,
    pendingUserInput := "", error := "" }

/-- Second-variant state for the C7 witness. -/
def c7StateV2 : V2.State :=
  { messages := [], input := "hi", conversations := [convA],
    currentConversation := some convA, isLoading := false }

/-- Environment for the C7 witness. -/
def c7Env : SendEnv :=
  { createConv := FetchResult.netError,
    createMsg := FetchResult.response true 201 (some aiMsg),
    refetch := FetchResult.response true 200 (some [aiMsg]) }

/-- Witness for C7 at a concrete successful send in both variants. -/
theorem claim_C7_witness :
    (aiMsg ∈ (V1.handleSend c7StateV1 c7Env).messages ∧
     ∀ m ∈ c7StateV1.messages,
       ((V1.handleSend c7StateV1 c7Env).messages).count m ≤ 1) ∧
    (aiMsg ∈ (V2.handleSend c7StateV2 c7Env 10 "T").messages ∧
     V2.tempUserMessage c7StateV2 10 "T" ∈ (V2.handleSend c7StateV2 c7Env 10 "T").messages ∧
     ∀ m ∈ c7StateV2.messages,
       ((V2.handleSend c7StateV2 c7Env 10 "T").messages).count m ≤ 1) :=
  claim_C7 c7StateV1 c7Env aiMsg 200 [aiMsg] c7StateV2 c7Env aiMsg 10 "T"
    (by decide) (fun h => absurd h (by decide)) rfl rfl
    (by decide) (by decide)
    (by decide) (fun h => absurd h (by decide)) rfl
    (by decide) (by decide) (by decide)
